import Mathlib

/-!
Shallow embedding of the decision logic of `src/app.py` (a movie success and
revenue predictor): the monthly-revenue index, the feature encoder for the two
models, the outcome-reasoning rules and the improvement-suggestion rules,
together with proofs of the specified properties.
-/

namespace MoviePredictor

/-- Historical monthly revenue index (`monthly_revenue` in app.py): a pandas
Series mapping month number to a strength value, modelled as an association
list from month to strength. -/
structure MonthlyIndex where
  entries : List (Nat × ℚ)
deriving DecidableEq

/-- Sum of all strength values of the index (used by `mean`). -/
def MonthlyIndex.sum (t : MonthlyIndex) : ℚ :=
  (t.entries.map Prod.snd).sum

/-- Global mean of the index, `monthly_revenue.mean()`. -/
def MonthlyIndex.mean (t : MonthlyIndex) : ℚ :=
  t.sum / (t.entries.length : ℚ)

/-- Lookup with fallback, `monthly_revenue.get(m, monthly_revenue.mean())`
(app.py lines 78, 103, 130): the value stored for month `m` when present,
the global mean otherwise. -/
def MonthlyIndex.get (t : MonthlyIndex) (m : Nat) : ℚ :=
  match t.entries.lookup m with
  | some v => v
  | none => t.mean

/-- Scan for the entry with the largest strength, keeping the earlier entry on
ties (pandas `idxmax` returns the first occurrence of the maximum). -/
def idxmaxRun (best : Nat × ℚ) : List (Nat × ℚ) → Nat × ℚ
  | [] => best
  | p :: rest => idxmaxRun (if best.2 < p.2 then p else best) rest

/-- Month of the largest strength value, `monthly_revenue.idxmax()`
(app.py line 183). Returns 0 on an empty index (pandas would raise there). -/
def MonthlyIndex.idxmax (t : MonthlyIndex) : Nat :=
  match t.entries with
  | [] => 0
  | p :: rest => (idxmaxRun p rest).1

/-- MultiLabelBinarizer transform (`genre_binarizer_*.transform([genres_input])`,
app.py lines 80, 105): one indicator per vocabulary class, 1 when the class is
in the user's selection and 0 otherwise; selections outside the vocabulary
contribute to no indicator. -/
def mlbTransform (classes sel : List String) : List Nat :=
  classes.map (fun c => if c ∈ sel then 1 else 0)

/-- Genre-indicator columns of the encoded frame (app.py lines 80-81, 105-106):
the transform output labelled with the column names `genre_<class>`, in the
vocabulary's order. -/
def genreColumns (classes sel : List String) : List (String × ℚ) :=
  classes.map (fun g => ("genre_" ++ g, if g ∈ sel then (1 : ℚ) else 0))

/-- Zero-filling loop (app.py lines 84-86, 109-111): for each vocabulary class
whose `genre_` column is not yet among the frame's columns, append that column
with value 0. -/
def fillMissingGenres (classes : List String) (cols : List (String × ℚ)) :
    List (String × ℚ) :=
  classes.foldl
    (fun acc c =>
      if ("genre_" ++ c) ∈ acc.map Prod.fst then acc else acc ++ [("genre_" ++ c, 0)])
    cols

/-- Feature encoder (app.py lines 76-98 for the success model, 101-114 for the
revenue model; the two blocks are the same construction instantiated with the
respective binarizer's vocabulary): `budget`, then `release_month_strength`
from the index lookup with mean fallback, then the genre-indicator columns and
the zero-filling loop, then `top_actor_count` and `known_director`. -/
def encodeFeatures (classes : List String) (budget : Nat) (t : MonthlyIndex)
    (release_month : Nat) (sel : List String) (actor_count known_director : Nat) :
    List (String × ℚ) :=
  fillMissingGenres classes
      ([("budget", (budget : ℚ)), ("release_month_strength", t.get release_month)]
        ++ genreColumns classes sel)
    ++ [("top_actor_count", (actor_count : ℚ)), ("known_director", (known_director : ℚ))]

/-- Actor-count rule (app.py lines 88-91): 0 when the selection contains the
sentinel "None" or is empty, otherwise the number of selected names that are
members of the top-actor list. -/
def actorCount (top_actors actors_input : List String) : Nat :=
  if "None" ∈ actors_input ∨ actors_input = [] then 0
  else (actors_input.filter (· ∈ top_actors)).length

/-- Known-director rule (app.py lines 94-97): 0 for the sentinel "None",
otherwise 1 exactly when the selected director is in the top-director list. -/
def knownDirector (top_directors : List String) (director_input : String) : Nat :=
  if director_input = "None" then 0
  else if director_input ∈ top_directors then 1 else 0

/-- Month strength used by the explainer (app.py line 130), the same lookup
expression as the one encoded into both feature vectors. -/
def monthStrength (t : MonthlyIndex) (release_month : Nat) : ℚ :=
  t.get release_month

/-- Tags for the canned reasoning statements of app.py lines 132-157, one
constructor per distinct appended string (the strong statements of the
success branch, the weak statements of the failure branch, and the two
generic fallback statements). -/
inductive Reason
  | strongBudget
  | strongMonth
  | strongActors
  | strongDirector
  | weakBudget
  | weakMonth
  | weakActors
  | weakDirector
  | genericSuccess
  | genericFailure
deriving DecidableEq

/-- Reason-selection rule (app.py lines 127-151): starting from the empty
list, the success branch (`success_pred == 1`) appends one strong statement
per holding condition, the failure branch appends one weak statement per
holding (inverse) condition. -/
def buildReasons (success_pred budget : Nat) (month_strength mean : ℚ)
    (actor_count known_director : Nat) : List Reason :=
  if success_pred = 1 then
    (if budget ≥ 50000000 then [Reason.strongBudget] else []) ++
    (if month_strength ≥ mean then [Reason.strongMonth] else []) ++
    (if actor_count ≥ 2 then [Reason.strongActors] else []) ++
    (if known_director = 1 then [Reason.strongDirector] else [])
  else
    (if budget < 50000000 then [Reason.weakBudget] else []) ++
    (if month_strength < mean then [Reason.weakMonth] else []) ++
    (if actor_count < 2 then [Reason.weakActors] else []) ++
    (if known_director = 0 then [Reason.weakDirector] else [])

/-- Modelled from the spec: the fallback block at app.py lines 153-157 is
syntactically malformed (the `if not reasons:` guard has an empty body, so the
file as written does not parse); per the spec the intended behaviour is that,
when no reason was collected, a single generic statement matching the
predicted label is emitted. -/
def buildReasonsWithFallback (success_pred budget : Nat) (month_strength mean : ℚ)
    (actor_count known_director : Nat) : List Reason :=
  let rs := buildReasons success_pred budget month_strength mean actor_count known_director
  if rs = [] then
    if success_pred = 1 then [Reason.genericSuccess] else [Reason.genericFailure]
  else rs

/-- Tags for the canned suggestion statements of app.py lines 179-190; the
release-month suggestion carries the month it recommends. -/
inductive Suggestion
  | raiseBudget
  | moveMonth (m : Nat)
  | addActors
  | attachDirector
deriving DecidableEq

/-- Suggestion rule (app.py lines 175-190): the block is emitted only when the
predicted success probability is below 0.6; inside it, each of the four
suggestions is written exactly when its own condition holds, and the
release-month suggestion recommends `monthly_revenue.idxmax()`. -/
def buildSuggestions (success_prob : ℚ) (budget : Nat) (month_strength : ℚ)
    (t : MonthlyIndex) (actor_count known_director : Nat) : Option (List Suggestion) :=
  if success_prob < 3 / 5 then
    some
      ((if budget < 50000000 then [Suggestion.raiseBudget] else []) ++
        (if month_strength < t.mean then [Suggestion.moveMonth t.idxmax] else []) ++
        (if actor_count < 2 then [Suggestion.addActors] else []) ++
        (if known_director = 0 then [Suggestion.attachDirector] else []))
  else
    none

example :
    actorCount ["Tom Hanks", "Meryl Streep"] ["Tom Hanks", "Meryl Streep"] = 2 := by
  decide

example : actorCount ["Tom Hanks"] ["None", "Tom Hanks"] = 0 := by decide

example : knownDirector ["Nolan"] "None" = 0 := by decide

example : knownDirector ["Nolan"] "Nolan" = 1 := by decide

example : (MonthlyIndex.mk [(1, 2), (7, 8), (12, 2)]).get 7 = 8 := by decide

example : (MonthlyIndex.mk [(1, 2), (7, 8), (12, 2)]).get 5 = 4 := by
  simp [MonthlyIndex.get, MonthlyIndex.mean, MonthlyIndex.sum, List.lookup]
  norm_num

example : (MonthlyIndex.mk [(1, 2), (7, 8), (12, 2)]).idxmax = 7 := by decide

example : mlbTransform ["Action", "Comedy"] ["Comedy", "Horror"] = [0, 1] := by decide

example :
    buildReasons 1 60000000 5 4 2 1 =
      [Reason.strongBudget, Reason.strongMonth, Reason.strongActors,
        Reason.strongDirector] := by
  decide

example : buildReasons 0 60000000 5 4 2 1 = [] := by decide

example : buildReasonsWithFallback 0 60000000 5 4 2 1 = [Reason.genericFailure] := by
  decide

example :
    buildSuggestions (1 / 2) 30000000 1 (MonthlyIndex.mk [(1, 2), (7, 8), (12, 2)]) 0 0 =
      some
        [Suggestion.raiseBudget, Suggestion.moveMonth 7, Suggestion.addActors,
          Suggestion.attachDirector] := by
  have hmean : (MonthlyIndex.mk [(1, 2), (7, 8), (12, 2)]).mean = 4 := by
    simp [MonthlyIndex.mean, MonthlyIndex.sum]
    norm_num
  simp [buildSuggestions, hmean, MonthlyIndex.idxmax, idxmaxRun]
  norm_num

example :
    buildSuggestions (3 / 4) 30000000 1 (MonthlyIndex.mk [(1, 2), (7, 8), (12, 2)]) 0 0 =
      none := by
  simp [buildSuggestions]
  norm_num

/-! Helper lemmas about association-list lookup. -/

lemma lookup_eq_none_iff (l : List (Nat × ℚ)) (m : Nat) :
    l.lookup m = none ↔ m ∉ l.map Prod.fst := by
  induction l with
  | nil => simp [List.lookup]
  | cons p rest ih =>
    obtain ⟨k, v⟩ := p
    by_cases h : m = k
    · subst h
      simp [List.lookup]
    · have hbeq : (m == k) = false := by simp [h]
      simp [List.lookup, hbeq, ih, h]

lemma lookup_eq_some_of_mem (l : List (Nat × ℚ)) (m : Nat) (v : ℚ)
    (hnd : (l.map Prod.fst).Nodup) (hm : (m, v) ∈ l) : l.lookup m = some v := by
  induction l with
  | nil => simp at hm
  | cons p rest ih =>
    obtain ⟨k, w⟩ := p
    simp only [List.map_cons, List.nodup_cons] at hnd
    rcases List.mem_cons.mp hm with h | h
    · obtain ⟨rfl, rfl⟩ := Prod.mk.injEq .. ▸ h
      simp [List.lookup]
    · have hne : m ≠ k := by
        rintro rfl
        exact hnd.1 (List.mem_map.mpr ⟨(m, v), h, rfl⟩)
      have hbeq : (m == k) = false := by simp [hne]
      simpa [List.lookup, hbeq] using ih hnd.2 h

/-- Claim C6: the month-strength lookup returns the stored value for a month
present in the historical table and the table's global mean for an absent
month, raising no error in either case (`MonthlyIndex.get` is total). -/
theorem month_lookup_spec (t : MonthlyIndex) (m : Nat) :
    (∀ v : ℚ, (t.entries.map Prod.fst).Nodup → (m, v) ∈ t.entries → t.get m = v) ∧
    (m ∉ t.entries.map Prod.fst → t.get m = t.mean) := by
  constructor
  · intro v hnd hm
    simp [MonthlyIndex.get, lookup_eq_some_of_mem t.entries m v hnd hm]
  · intro hm
    simp [MonthlyIndex.get, (lookup_eq_none_iff t.entries m).mpr hm]

/-- Witness for C6 at a concrete table: month 7 is present with value 8, and
month 5 is absent so the lookup falls back to the mean. -/
theorem month_lookup_spec_witness :
    (MonthlyIndex.mk [(1, 2), (7, 8), (12, 2)]).get 7 = 8 ∧
    (MonthlyIndex.mk [(1, 2), (7, 8), (12, 2)]).get 5 =
      (MonthlyIndex.mk [(1, 2), (7, 8), (12, 2)]).mean :=
  ⟨(month_lookup_spec (MonthlyIndex.mk [(1, 2), (7, 8), (12, 2)]) 7).1 8
      (by decide) (by decide),
    (month_lookup_spec (MonthlyIndex.mk [(1, 2), (7, 8), (12, 2)]) 5).2 (by decide)⟩

/-- Claim C8: known_director is 0 for the sentinel selection "None"; otherwise
it is 1 exactly when the selected director is in the top-director list and 0
otherwise; and it only ever takes the values 0 and 1. -/
theorem known_director_spec (top : List String) (d : String) :
    (d = "None" → knownDirector top d = 0) ∧
    (d ≠ "None" → ((d ∈ top → knownDirector top d = 1) ∧
      (d ∉ top → knownDirector top d = 0))) ∧
    (knownDirector top d = 0 ∨ knownDirector top d = 1) := by
  unfold knownDirector
  refine ⟨?_, ?_, ?_⟩ <;> split_ifs <;> simp_all

/-- Witness for C8 at concrete selections: the sentinel, a listed director and
an unlisted director. -/
theorem known_director_spec_witness :
    knownDirector ["Nolan"] "None" = 0 ∧
    knownDirector ["Nolan"] "Nolan" = 1 ∧
    knownDirector ["Nolan"] "Smith" = 0 :=
  ⟨(known_director_spec ["Nolan"] "None").1 rfl,
    ((known_director_spec ["Nolan"] "Nolan").2.1 (by decide)).1 (by decide),
    ((known_director_spec ["Nolan"] "Smith").2.1 (by decide)).2 (by decide)⟩

/-- Counterexample to claim C4 as stated: the selection ["None", "Tom Hanks"]
with top-actor list ["Tom Hanks"] is neither empty nor exactly the sentinel
selection, so the claim's "otherwise" branch asserts an actor count of 1
(the one selected actor that is in the list), but the code returns 0 because
the sentinel occurs anywhere in the selection. -/
theorem actor_count_counterexample :
    ¬ ((["None", "Tom Hanks"] : List String) ≠ [] ∧
          (["None", "Tom Hanks"] : List String) ≠ ["None"] →
        actorCount ["Tom Hanks"] ["None", "Tom Hanks"] =
          ((["None", "Tom Hanks"] : List String).filter
            (· ∈ (["Tom Hanks"] : List String))).length) := by
  decide

/-- Claim C4 (amended): actor_count is 0 whenever the selection is empty or
contains the sentinel "None" anywhere; otherwise it equals the number of
selected actors that are members of the top-actor list (unknown selections
count as 0 without error); and it is at most 3 whenever at most 3 actors are
selected. -/
theorem actor_count_spec (top sel : List String) :
    (sel = [] ∨ "None" ∈ sel → actorCount top sel = 0) ∧
    (sel ≠ [] → "None" ∉ sel →
      actorCount top sel = (sel.filter (· ∈ top)).length) ∧
    (sel.length ≤ 3 → actorCount top sel ≤ 3) := by
  unfold actorCount
  refine ⟨?_, ?_, ?_⟩
  · rintro (h | h) <;> simp [h]
  · intro h1 h2
    rw [if_neg]
    tauto
  · intro h
    split_ifs
    · omega
    · exact le_trans (List.length_filter_le _ _) h

/-- Witness for C4 (amended) at concrete selections. -/
theorem actor_count_spec_witness :
    actorCount ["Tom Hanks"] ["None"] = 0 ∧
    actorCount ["Tom Hanks", "Meryl Streep"] ["Tom Hanks", "Meryl Streep"] =
      ((["Tom Hanks", "Meryl Streep"] : List String).filter
        (· ∈ (["Tom Hanks", "Meryl Streep"] : List String))).length ∧
    actorCount [] ["A", "B", "C"] ≤ 3 :=
  ⟨(actor_count_spec ["Tom Hanks"] ["None"]).1 (Or.inr (by decide)),
    (actor_count_spec ["Tom Hanks", "Meryl Streep"] ["Tom Hanks", "Meryl Streep"]).2.1
      (by decide) (by decide),
    (actor_count_spec [] ["A", "B", "C"]).2.2 (by decide)⟩

/-- Claim C1: the reasoning list is selected by the predicted label; on the
success branch each of the four strong statements appears exactly once when
its condition holds and not at all otherwise, and nothing but those four
statements can appear; on the failure branch the same holds for the four
mirrored weak statements. -/
theorem reasons_spec (pred budget : Nat) (ms mean : ℚ) (ac kd : Nat) :
    (pred = 1 →
      (buildReasons pred budget ms mean ac kd).count Reason.strongBudget
          = (if 50000000 ≤ budget then 1 else 0) ∧
      (buildReasons pred budget ms mean ac kd).count Reason.strongMonth
          = (if mean ≤ ms then 1 else 0) ∧
      (buildReasons pred budget ms mean ac kd).count Reason.strongActors
          = (if 2 ≤ ac then 1 else 0) ∧
      (buildReasons pred budget ms mean ac kd).count Reason.strongDirector
          = (if kd = 1 then 1 else 0) ∧
      ∀ r ∈ buildReasons pred budget ms mean ac kd,
        r = Reason.strongBudget ∨ r = Reason.strongMonth ∨
          r = Reason.strongActors ∨ r = Reason.strongDirector) ∧
    (pred ≠ 1 →
      (buildReasons pred budget ms mean ac kd).count Reason.weakBudget
          = (if budget < 50000000 then 1 else 0) ∧
      (buildReasons pred budget ms mean ac kd).count Reason.weakMonth
          = (if ms < mean then 1 else 0) ∧
      (buildReasons pred budget ms mean ac kd).count Reason.weakActors
          = (if ac < 2 then 1 else 0) ∧
      (buildReasons pred budget ms mean ac kd).count Reason.weakDirector
          = (if kd = 0 then 1 else 0) ∧
      ∀ r ∈ buildReasons pred budget ms mean ac kd,
        r = Reason.weakBudget ∨ r = Reason.weakMonth ∨
          r = Reason.weakActors ∨ r = Reason.weakDirector) := by
  constructor
  · intro h
    simp only [buildReasons, if_pos h, ge_iff_le]
    split_ifs <;> refine ⟨by decide, by decide, by decide, by decide, by decide⟩
  · intro h
    simp only [buildReasons, if_neg h]
    split_ifs <;> refine ⟨by decide, by decide, by decide, by decide, by decide⟩

/-- Witness for C1 at concrete inputs on both branches: with every strong
condition holding, the success branch lists the budget statement once; with
every weak condition failing, the failure branch lists no budget statement. -/
theorem reasons_spec_witness :
    (buildReasons 1 60000000 5 4 2 1).count Reason.strongBudget = 1 ∧
    (buildReasons 0 60000000 5 4 2 1).count Reason.weakBudget = 0 := by
  refine ⟨?_, ?_⟩
  · have h := ((reasons_spec 1 60000000 5 4 2 1).1 rfl).1
    simpa using h
  · have h := ((reasons_spec 0 60000000 5 4 2 1).2 (by decide)).1
    simpa using h

/-- Claim C2 (proved against the spec-modelled fallback, since the fallback
block in the code is a syntax error): when none of the four conditions of the
active branch hold, the reasoning list is exactly the single generic statement
matching the predicted label. -/
theorem fallback_spec (pred budget : Nat) (ms mean : ℚ) (ac kd : Nat)
    (hs : pred = 1 → ¬50000000 ≤ budget ∧ ¬mean ≤ ms ∧ ¬2 ≤ ac ∧ kd ≠ 1)
    (hf : pred ≠ 1 → ¬budget < 50000000 ∧ ¬ms < mean ∧ ¬ac < 2 ∧ kd ≠ 0) :
    buildReasonsWithFallback pred budget ms mean ac kd
      = if pred = 1 then [Reason.genericSuccess] else [Reason.genericFailure] := by
  by_cases h : pred = 1
  · obtain ⟨h1, h2, h3, h4⟩ := hs h
    simp [buildReasonsWithFallback, buildReasons, h, h1, h2, h3, h4]
  · obtain ⟨h1, h2, h3, h4⟩ := hf h
    simp [buildReasonsWithFallback, buildReasons, h, h1, h2, h3, h4]

/-- Witness for C2 at a concrete input: predicted success with no strong
condition holding yields exactly the generic success statement. -/
theorem fallback_spec_witness :
    buildReasonsWithFallback 1 30000000 1 4 0 0 = [Reason.genericSuccess] := by
  have h := fallback_spec 1 30000000 1 4 0 0
    (fun _ => by norm_num) (fun hne => absurd rfl hne)
  simpa using h

/-- Claim C3: the suggestions block is emitted exactly when the predicted
success probability is strictly below 0.6 (the construction does not consult
the predicted label at all), and within the block each of the four suggestions
appears exactly when its own condition holds, independently of the others. -/
theorem suggestions_spec (prob : ℚ) (budget : Nat) (ms : ℚ) (t : MonthlyIndex)
    (ac kd : Nat) :
    ((buildSuggestions prob budget ms t ac kd).isSome ↔ prob < 3 / 5) ∧
    ∀ l, buildSuggestions prob budget ms t ac kd = some l →
      (Suggestion.raiseBudget ∈ l ↔ budget < 50000000) ∧
      ((∃ m, Suggestion.moveMonth m ∈ l) ↔ ms < t.mean) ∧
      (Suggestion.addActors ∈ l ↔ ac < 2) ∧
      (Suggestion.attachDirector ∈ l ↔ kd = 0) := by
  constructor
  · unfold buildSuggestions
    split_ifs with h <;> simp [h]
  · intro l hl
    have h : prob < 3 / 5 := by
      by_contra hp
      simp [buildSuggestions, hp] at hl
    rw [buildSuggestions, if_pos h, Option.some.injEq] at hl
    subst hl
    refine ⟨?_, ?_, ?_, ?_⟩ <;> split_ifs <;> simp_all

/-- Witness for C3 at a concrete submission: probability one half, all four
conditions triggering. -/
theorem suggestions_spec_witness :
    Suggestion.raiseBudget ∈
      ([Suggestion.raiseBudget, Suggestion.moveMonth 7, Suggestion.addActors,
        Suggestion.attachDirector] : List Suggestion) ∧
    (0 : Nat) < 2 := by
  have heq :
      buildSuggestions (1 / 2) 30000000 1 (MonthlyIndex.mk [(1, 2), (7, 8), (12, 2)]) 0 0 =
        some [Suggestion.raiseBudget, Suggestion.moveMonth 7, Suggestion.addActors,
          Suggestion.attachDirector] := by
    have hmean : (MonthlyIndex.mk [(1, 2), (7, 8), (12, 2)]).mean = 4 := by
      simp [MonthlyIndex.mean, MonthlyIndex.sum]
      norm_num
    simp [buildSuggestions, hmean, MonthlyIndex.idxmax, idxmaxRun]
    norm_num
  have h := (suggestions_spec (1 / 2) 30000000 1
      (MonthlyIndex.mk [(1, 2), (7, 8), (12, 2)]) 0 0).2 _ heq
  exact ⟨h.1.mpr (by decide), by decide⟩

/-! Helper lemmas about the arg-max scan. -/

lemma idxmaxRun_mem (best : Nat × ℚ) (l : List (Nat × ℚ)) :
    idxmaxRun best l ∈ best :: l := by
  induction l generalizing best with
  | nil => simp [idxmaxRun]
  | cons p rest ih =>
    have h := ih (if best.2 < p.2 then p else best)
    simp only [idxmaxRun]
    rcases List.mem_cons.mp h with h | h
    · rw [h]
      split_ifs <;> simp
    · simp [h]

lemma idxmaxRun_le (best : Nat × ℚ) (l : List (Nat × ℚ)) :
    ∀ p ∈ best :: l, p.2 ≤ (idxmaxRun best l).2 := by
  induction l generalizing best with
  | nil =>
    intro p hp
    rw [List.mem_singleton.mp hp]
    exact le_refl _
  | cons q rest ih =>
    intro p hp
    have hb : best.2 ≤ (if best.2 < q.2 then q else best).2 := by
      split_ifs with h
      · exact le_of_lt h
      · exact le_refl _
    have hq : q.2 ≤ (if best.2 < q.2 then q else best).2 := by
      split_ifs with h
      · exact le_refl _
      · exact not_lt.mp h
    have hrun : idxmaxRun best (q :: rest) = idxmaxRun (if best.2 < q.2 then q else best) rest :=
      rfl
    rcases List.mem_cons.mp hp with rfl | hp
    · exact hrun ▸ le_trans hb (ih _ _ (List.mem_cons_self _ _))
    · rcases List.mem_cons.mp hp with rfl | hp
      · exact hrun ▸ le_trans hq (ih _ _ (List.mem_cons_self _ _))
      · exact hrun ▸ ih _ _ (List.mem_cons_of_mem _ hp)

lemma idxmax_is_max (t : MonthlyIndex) (hne : t.entries ≠ []) :
    ∃ v, (t.idxmax, v) ∈ t.entries ∧ ∀ p ∈ t.entries, p.2 ≤ v := by
  obtain ⟨entries⟩ := t
  match entries, hne with
  | p :: rest, _ =>
    refine ⟨(idxmaxRun p rest).2, ?_, ?_⟩
    · exact idxmaxRun_mem p rest
    · exact idxmaxRun_le p rest

/-- Claim C9: whenever the release-month suggestion appears in an emitted
suggestions block, the month it recommends is the arg-max of the monthly
revenue index, a month carrying the highest strength value in the table. -/
theorem best_month_spec (t : MonthlyIndex) (prob : ℚ) (budget : Nat) (ms : ℚ)
    (ac kd : Nat) (l : List Suggestion) (m : Nat)
    (hne : t.entries ≠ [])
    (hl : buildSuggestions prob budget ms t ac kd = some l)
    (hm : Suggestion.moveMonth m ∈ l) :
    m = t.idxmax ∧ ∃ v, (m, v) ∈ t.entries ∧ ∀ p ∈ t.entries, p.2 ≤ v := by
  have h : prob < 3 / 5 := by
    by_contra hp
    simp [buildSuggestions, hp] at hl
  rw [buildSuggestions, if_pos h, Option.some.injEq] at hl
  subst hl
  have hmx : m = t.idxmax := by
    split_ifs at hm <;> simp_all
  exact ⟨hmx, hmx ▸ idxmax_is_max t hne⟩

/-- Witness for C9 at a concrete submission and table: the block recommends
month 7, the table's arg-max. -/
theorem best_month_spec_witness :
    7 = (MonthlyIndex.mk [(1, 2), (7, 8), (12, 2)]).idxmax ∧
    ∃ v, ((7 : Nat), v) ∈ (MonthlyIndex.mk [(1, 2), (7, 8), (12, 2)]).entries ∧
      ∀ p ∈ (MonthlyIndex.mk [(1, 2), (7, 8), (12, 2)]).entries, p.2 ≤ v := by
  have heq :
      buildSuggestions (1 / 2) 30000000 1 (MonthlyIndex.mk [(1, 2), (7, 8), (12, 2)]) 0 0 =
        some [Suggestion.raiseBudget, Suggestion.moveMonth 7, Suggestion.addActors,
          Suggestion.attachDirector] := by
    have hmean : (MonthlyIndex.mk [(1, 2), (7, 8), (12, 2)]).mean = 4 := by
      simp [MonthlyIndex.mean, MonthlyIndex.sum]
      norm_num
    simp [buildSuggestions, hmean, MonthlyIndex.idxmax, idxmaxRun]
    norm_num
  exact best_month_spec (MonthlyIndex.mk [(1, 2), (7, 8), (12, 2)]) (1 / 2) 30000000 1 0 0
    _ 7 (by decide) heq (by decide)

/-! Helper lemmas about the genre indicators. -/

lemma sum_mlbTransform (classes sel : List String) :
    (mlbTransform classes sel).sum = (classes.filter (· ∈ sel)).length := by
  induction classes with
  | nil => rfl
  | cons c rest ih =>
    simp only [mlbTransform, List.map_cons, List.sum_cons, List.filter_cons] at *
    by_cases h : c ∈ sel
    · simp [h, ih, Nat.add_comm]
    · simp [h, ih]

lemma filter_mem_length_comm (l1 l2 : List String) (h1 : l1.Nodup) (h2 : l2.Nodup) :
    (l1.filter (· ∈ l2)).length = (l2.filter (· ∈ l1)).length := by
  have key : ∀ (a b : List String), a.Nodup → b.Nodup →
      (a.filter (· ∈ b)).length = (a.toFinset ∩ b.toFinset).card := by
    intro a b ha hb
    rw [← List.toFinset_card_of_nodup (ha.filter _), List.toFinset_filter,
      ← Finset.filter_mem_eq_inter]
    congr 1
    apply Finset.filter_congr
    intro x _
    simp
  rw [key l1 l2 h1 h2, key l2 l1 h2 h1, Finset.inter_comm]

/-- Claim C5: the genre-indicator columns of the encoded frame are exactly the
`genre_`-labelled columns of the given model's vocabulary in order, each
indicator is 1 exactly when its genre is in the user's selection (so
selections outside the vocabulary set no indicator), and the indicators sum to
the number of selected genres that belong to that model's vocabulary. -/
theorem genre_encoding_spec (classes sel : List String)
    (hc : classes.Nodup) (hs : sel.Nodup) :
    ((genreColumns classes sel).map Prod.fst = classes.map (fun g => "genre_" ++ g)) ∧
    ((mlbTransform classes sel).length = classes.length) ∧
    (∀ i : Fin classes.length,
      (mlbTransform classes sel)[i.1]? = some (if classes.get i ∈ sel then 1 else 0)) ∧
    ((mlbTransform classes sel).sum = (sel.filter (· ∈ classes)).length) := by
  refine ⟨?_, ?_, ?_, ?_⟩
  · simp [genreColumns, List.map_map, Function.comp]
  · simp [mlbTransform]
  · intro i
    simp [mlbTransform, List.getElem?_map, List.getElem?_eq_getElem i.2]
  · rw [sum_mlbTransform classes sel, filter_mem_length_comm classes sel hc hs]

/-- Witness for C5 at a concrete vocabulary and selection, with one selected
genre inside the vocabulary and one outside it. -/
theorem genre_encoding_spec_witness :
    ((genreColumns ["Action", "Comedy"] ["Comedy", "Horror"]).map Prod.fst =
      ["genre_Action", "genre_Comedy"]) ∧
    (mlbTransform ["Action", "Comedy"] ["Comedy", "Horror"]).sum =
      ((["Comedy", "Horror"] : List String).filter
        (· ∈ (["Action", "Comedy"] : List String))).length := by
  have h := genre_encoding_spec ["Action", "Comedy"] ["Comedy", "Horror"]
    (by decide) (by decide)
  exact ⟨by simpa using h.1, h.2.2.2⟩

/-! Helper lemmas about the encoded feature frame. -/

lemma fillMissingGenres_eq_self (classes : List String) (cols : List (String × ℚ))
    (h : ∀ c ∈ classes, ("genre_" ++ c) ∈ cols.map Prod.fst) :
    fillMissingGenres classes cols = cols := by
  induction classes generalizing cols with
  | nil => rfl
  | cons c rest ih =>
    have hc : ("genre_" ++ c) ∈ cols.map Prod.fst := h c (List.mem_cons_self _ _)
    show List.foldl _ _ (c :: rest) = cols
    rw [List.foldl_cons, if_pos hc]
    exact ih cols (fun x hx => h x (List.mem_cons_of_mem _ hx))

lemma genre_mem_base_keys (classes sel : List String) (b rms : ℚ) (c : String)
    (hc : c ∈ classes) :
    ("genre_" ++ c) ∈
      (([("budget", b), ("release_month_strength", rms)] ++ genreColumns classes sel).map
        Prod.fst) := by
  simp only [List.map_append, List.mem_append]
  right
  simp only [genreColumns, List.map_map]
  exact List.mem_map.mpr ⟨c, hc, rfl⟩

lemma encodeFeatures_eq (classes sel : List String) (b : Nat) (t : MonthlyIndex)
    (rm : Nat) (ac kd : Nat) :
    encodeFeatures classes b t rm sel ac kd =
      [("budget", (b : ℚ)), ("release_month_strength", t.get rm)]
        ++ genreColumns classes sel
        ++ [("top_actor_count", (ac : ℚ)), ("known_director", (kd : ℚ))] := by
  unfold encodeFeatures
  rw [fillMissingGenres_eq_self _ _ (fun c hc => genre_mem_base_keys classes sel _ _ c hc)]

lemma genre_col_ne (g s : String) (hs : s.data.head? ≠ some 'g') :
    "genre_" ++ g ≠ s := by
  intro h
  apply hs
  rw [← h, String.data_append]
  rfl

/-- Claim C7: for either model's vocabulary, the encoded feature frame carries
exactly the expected column set, in the order budget, release-month strength,
the vocabulary's `genre_` columns, top-actor count, known-director; and every
genre-indicator column whose genre the user did not select is present with
value 0 rather than missing. -/
theorem feature_columns_spec (classes : List String) (b : Nat) (t : MonthlyIndex)
    (rm : Nat) (sel : List String) (ac kd : Nat) :
    ((encodeFeatures classes b t rm sel ac kd).map Prod.fst =
      ["budget", "release_month_strength"] ++ classes.map (fun g => "genre_" ++ g)
        ++ ["top_actor_count", "known_director"]) ∧
    (∀ g ∈ classes, g ∉ sel →
      ("genre_" ++ g, (0 : ℚ)) ∈ encodeFeatures classes b t rm sel ac kd) := by
  constructor
  · rw [encodeFeatures_eq]
    simp [genreColumns, List.map_map, Function.comp]
  · intro g hg hgs
    rw [encodeFeatures_eq]
    simp only [List.append_assoc, List.mem_append]
    right; left
    exact List.mem_map.mpr ⟨g, hg, by simp [hgs]⟩

/-- Witness for C7 at a concrete vocabulary in which one genre is unselected. -/
theorem feature_columns_spec_witness :
    ((encodeFeatures ["Action", "Comedy"] 30000000 (MonthlyIndex.mk [(7, 8)]) 7
        ["Comedy"] 0 0).map Prod.fst =
      ["budget", "release_month_strength", "genre_Action", "genre_Comedy",
        "top_actor_count", "known_director"]) ∧
    ("genre_Action", (0 : ℚ)) ∈
      encodeFeatures ["Action", "Comedy"] 30000000 (MonthlyIndex.mk [(7, 8)]) 7
        ["Comedy"] 0 0 := by
  have h := feature_columns_spec ["Action", "Comedy"] 30000000 (MonthlyIndex.mk [(7, 8)]) 7
    ["Comedy"] 0 0
  exact ⟨by simpa using h.1, h.2 "Action" (by decide) (by decide)⟩

/-! Helper lemmas for looking up the shared columns. -/

lemma lookup_append_of_not_mem (l1 l2 : List (String × ℚ)) (s : String)
    (h : s ∉ l1.map Prod.fst) : (l1 ++ l2).lookup s = l2.lookup s := by
  induction l1 with
  | nil => rfl
  | cons p rest ih =>
    obtain ⟨k, v⟩ := p
    simp only [List.map_cons, List.mem_cons, not_or] at h
    have hbeq : (s == k) = false := by simp [h.1]
    simpa [List.lookup, hbeq] using ih h.2

lemma not_mem_genre_keys (classes sel : List String) (s : String)
    (hg : s.data.head? ≠ some 'g') : s ∉ (genreColumns classes sel).map Prod.fst := by
  intro hmem
  simp only [genreColumns, List.map_map] at hmem
  obtain ⟨c, _, hc⟩ := List.mem_map.mp hmem
  exact genre_col_ne c s hg hc

lemma encode_lookup_spec (classes sel : List String) (b : Nat) (t : MonthlyIndex)
    (rm : Nat) (ac kd : Nat) :
    (encodeFeatures classes b t rm sel ac kd).lookup "budget" = some (b : ℚ) ∧
    (encodeFeatures classes b t rm sel ac kd).lookup "release_month_strength"
      = some (t.get rm) ∧
    (encodeFeatures classes b t rm sel ac kd).lookup "top_actor_count" = some (ac : ℚ) ∧
    (encodeFeatures classes b t rm sel ac kd).lookup "known_director" = some (kd : ℚ) := by
  rw [encodeFeatures_eq]
  refine ⟨?_, ?_, ?_, ?_⟩
  · simp [List.lookup]
  · simp [List.lookup]
  · rw [List.append_assoc, lookup_append_of_not_mem]
    · rw [lookup_append_of_not_mem]
      · simp [List.lookup]
      · exact not_mem_genre_keys classes sel _ (by decide)
    · simp
  · rw [List.append_assoc, lookup_append_of_not_mem]
    · rw [lookup_append_of_not_mem]
      · simp [List.lookup]
      · exact not_mem_genre_keys classes sel _ (by decide)
    · simp

/-- Claim C10: the feature vectors handed to the success model and to the
revenue model carry identical values for the shared non-genre columns budget,
release-month strength, top-actor count and known-director, and the month
strength consulted by the reasoning and suggestion rules is the same value
encoded into both vectors. -/
theorem shared_columns_spec (cS cR : List String) (b : Nat) (t : MonthlyIndex)
    (rm : Nat) (sel : List String) (ac kd : Nat) :
    ((encodeFeatures cS b t rm sel ac kd).lookup "budget"
        = (encodeFeatures cR b t rm sel ac kd).lookup "budget" ∧
      (encodeFeatures cS b t rm sel ac kd).lookup "budget" = some (b : ℚ)) ∧
    ((encodeFeatures cS b t rm sel ac kd).lookup "release_month_strength"
        = (encodeFeatures cR b t rm sel ac kd).lookup "release_month_strength" ∧
      (encodeFeatures cS b t rm sel ac kd).lookup "release_month_strength"
        = some (monthStrength t rm)) ∧
    ((encodeFeatures cS b t rm sel ac kd).lookup "top_actor_count"
        = (encodeFeatures cR b t rm sel ac kd).lookup "top_actor_count" ∧
      (encodeFeatures cS b t rm sel ac kd).lookup "top_actor_count" = some (ac : ℚ)) ∧
    ((encodeFeatures cS b t rm sel ac kd).lookup "known_director"
        = (encodeFeatures cR b t rm sel ac kd).lookup "known_director" ∧
      (encodeFeatures cS b t rm sel ac kd).lookup "known_director" = some (kd : ℚ)) := by
  have hS := encode_lookup_spec cS sel b t rm ac kd
  have hR := encode_lookup_spec cR sel b t rm ac kd
  exact ⟨⟨hS.1.trans hR.1.symm, hS.1⟩,
    ⟨(hS.2.1).trans hR.2.1.symm, hS.2.1⟩,
    ⟨(hS.2.2.1).trans hR.2.2.1.symm, hS.2.2.1⟩,
    ⟨(hS.2.2.2).trans hR.2.2.2.symm, hS.2.2.2⟩⟩

end MoviePredictor
